import Mathlib

/-!
Shallow embedding of the core of the Automatic-Attendance-System-with-Face-Recognition
repository and proofs about it.

Embedded source units:
* face matching: `src/face_detection/face_detector.py` (`FaceDetector.detect_faces_optimized`,
  the detection cache, `FaceDetector._clean_cache`);
* blink-based liveness: `src/face_detection/anti_spoofing.py` (`AntiSpoofing.detect_blink`
  state updates, `AntiSpoofing.is_live_person`);
* attendance marking: `src/database/db_manager.py` (`DatabaseManager.mark_attendance`,
  `DatabaseManager.get_attendance_records`) and `src/pages/_live_attendance_webrtc.py`
  (`FaceRecognitionTransformer._process_attendance`, `_get_attendance_status`,
  `_determine_action`, `_draw_recognition_results`, `_draw_cached_results`,
  the `recv` result-building loop, `_handle_unknown_person`, `_get_user_id_by_name`).

Real-valued quantities of the source (distances, confidences, EAR values, elapsed
seconds, cache times) are modelled as rationals; timestamps, dates, hours and row
ids as naturals.  External library calls (`face_recognition`, numpy, MediaPipe,
OpenCV drawing, SQLite storage) are modelled at their interface: the embedder
output and the distance function are parameters, numpy argmin is `npArgmin`,
and the SQLite tables are explicit lists of rows.
-/

/-- Models `numpy.argmin` as invoked at `face_detector.py:102`
(`best_match_index = np.argmin(face_distances)`): the index of the first
occurrence of the minimum of a list of distances (numpy returns the first
occurrence on ties).  On the empty list it returns `0` (numpy would raise;
the source only calls it with a non-empty known-encodings list). -/
def npArgmin : List ℚ → Nat
  | [] => 0
  | d :: rest =>
    match rest with
    | [] => 0
    | e :: rest2 =>
      let r := npArgmin (e :: rest2)
      if (e :: rest2).getD r 0 < d then r + 1 else 0

theorem npArgmin_singleton (d : ℚ) : npArgmin [d] = 0 := rfl

theorem npArgmin_cons_cons (d e : ℚ) (rest2 : List ℚ) :
    npArgmin (d :: e :: rest2)
      = if (e :: rest2).getD (npArgmin (e :: rest2)) 0 < d
        then npArgmin (e :: rest2) + 1 else 0 := rfl

theorem npArgmin_lt_length (l : List ℚ) (h : l ≠ []) : npArgmin l < l.length := by
  induction l with
  | nil => simp at h
  | cons d rest ih =>
    match rest with
    | [] => simp [npArgmin]
    | e :: rest2 =>
      rw [npArgmin_cons_cons]
      by_cases hc : (e :: rest2).getD (npArgmin (e :: rest2)) 0 < d
      · rw [if_pos hc]
        have := ih (by simp)
        simpa using Nat.succ_lt_succ this
      · rw [if_neg hc]
        simp

theorem npArgmin_min (l : List ℚ) :
    ∀ j, j < l.length → l.getD (npArgmin l) 0 ≤ l.getD j 0 := by
  induction l with
  | nil => intro j hj; simp at hj
  | cons d rest ih =>
    match rest with
    | [] =>
      intro j hj
      simp only [List.length_cons, List.length_nil] at hj
      interval_cases j
      · simp [npArgmin]
    | e :: rest2 =>
      intro j hj
      rw [npArgmin_cons_cons]
      by_cases hc : (e :: rest2).getD (npArgmin (e :: rest2)) 0 < d
      · rw [if_pos hc]
        simp only [List.getD_cons_succ]
        match j with
        | 0 => simpa using le_of_lt hc
        | j' + 1 =>
          simp only [List.getD_cons_succ]
          exact ih j' (by simpa using hj)
      · rw [if_neg hc]
        push_neg at hc
        simp only [List.getD_cons_zero]
        match j with
        | 0 => simp
        | j' + 1 =>
          simp only [List.getD_cons_succ]
          exact le_trans hc (ih j' (by simpa using hj))

theorem npArgmin_first (l : List ℚ) :
    ∀ j, j < npArgmin l → l.getD (npArgmin l) 0 < l.getD j 0 := by
  induction l with
  | nil => intro j hj; simp [npArgmin] at hj
  | cons d rest ih =>
    match rest with
    | [] => intro j hj; simp [npArgmin] at hj
    | e :: rest2 =>
      intro j hj
      rw [npArgmin_cons_cons] at hj ⊢
      by_cases hc : (e :: rest2).getD (npArgmin (e :: rest2)) 0 < d
      · rw [if_pos hc] at hj ⊢
        simp only [List.getD_cons_succ]
        match j with
        | 0 => simpa using hc
        | j' + 1 =>
          simp only [List.getD_cons_succ]
          exact ih j' (by omega)
      · rw [if_neg hc] at hj
        omega

/-- One entry of the known-faces gallery held by `FaceDetector`
(`face_detector.py` lines 12-18, 33-53): `load_known_faces` appends, in lockstep,
to the three parallel lists `known_face_encodings`, `known_face_names`,
`known_face_ids`; the parallel lists are modelled as one list of records. -/
structure KnownFace (α : Type) where
  encoding : α
  name : String
  id : Nat
deriving Repr, DecidableEq

/-- The distance list `fr.face_distance(self.known_face_encodings, face_encoding)`
of `face_detector.py:101`; the external metric of the `face_recognition` library
is the parameter `dist`. -/
def faceDistances {α : Type} (dist : α → α → ℚ) (known : List (KnownFace α)) (e : α) :
    List ℚ :=
  known.map (fun k => dist k.encoding e)

/-- Per-face matching logic of `FaceDetector.detect_faces_optimized`
(`face_detector.py` lines 99-112): with a non-empty gallery, compute the distance
to every stored encoding, pick the first index of minimum distance
(`np.argmin`), set `confidence = 1 - distance`, and declare the match exactly
when that minimum distance is `<= self.tolerance`; otherwise, and also when no
known encodings are loaded, the face is `"Unknown Person"` with confidence `0.0`.
Returns the `(name, confidence)` pair of the result tuple. -/
def matchFace {α : Type} (dist : α → α → ℚ) (known : List (KnownFace α))
    (tolerance : ℚ) (e : α) : String × ℚ :=
  if 0 < known.length then
    let ds := faceDistances dist known e
    let best := npArgmin ds
    let confidence := 1 - ds.getD best 0
    if ds.getD best 0 ≤ tolerance then
      ((known.map (fun k => k.name)).getD best "", confidence)
    else
      ("Unknown Person", 0)
  else
    ("Unknown Person", 0)

/-- Claim C3: for every query embedding `e` and non-empty gallery, the match
selects the stored embedding at globally minimum distance to `e` (first index
wins ties), declares a match exactly when that minimum is at most the tolerance
(boundary inclusive), and returns the name stored at the minimizing index —
i.e. the identity owning the closest embedding, whichever of its embeddings
achieved the minimum. -/
theorem match_nearest_c3 {α : Type} (dist : α → α → ℚ) (known : List (KnownFace α))
    (tolerance : ℚ) (e : α) (hne : known ≠ []) :
    npArgmin (faceDistances dist known e) < known.length
    ∧ (∀ j, j < known.length →
        (faceDistances dist known e).getD (npArgmin (faceDistances dist known e)) 0
          ≤ (faceDistances dist known e).getD j 0)
    ∧ (∀ j, j < npArgmin (faceDistances dist known e) →
        (faceDistances dist known e).getD (npArgmin (faceDistances dist known e)) 0
          < (faceDistances dist known e).getD j 0)
    ∧ ((faceDistances dist known e).getD (npArgmin (faceDistances dist known e)) 0
          ≤ tolerance →
        matchFace dist known tolerance e
          = ((known.map (fun k => k.name)).getD (npArgmin (faceDistances dist known e)) "",
             1 - (faceDistances dist known e).getD (npArgmin (faceDistances dist known e)) 0))
    ∧ (tolerance
          < (faceDistances dist known e).getD (npArgmin (faceDistances dist known e)) 0 →
        matchFace dist known tolerance e = ("Unknown Person", 0)) := by
  have hlen : (faceDistances dist known e).length = known.length := by
    simp [faceDistances]
  have hpos : 0 < known.length := List.length_pos.mpr hne
  refine ⟨?_, ?_, ?_, ?_, ?_⟩
  · have := npArgmin_lt_length (faceDistances dist known e) (by
      simp [faceDistances, hne])
    omega
  · intro j hj
    exact npArgmin_min (faceDistances dist known e) j (by omega)
  · intro j hj
    exact npArgmin_first (faceDistances dist known e) j hj
  · intro hle
    simp only [matchFace]
    rw [if_pos hpos, if_pos hle]
  · intro hgt
    have hnle : ¬ (faceDistances dist known e).getD (npArgmin (faceDistances dist known e)) 0
        ≤ tolerance := not_le.mpr hgt
    simp only [matchFace]
    rw [if_pos hpos, if_neg hnle]

/-- Witness for C3 at a concrete gallery: two identities with encodings `0` and
`10` under the one-dimensional distance `max (x - y) (y - x)`, query `1`,
tolerance `2`: the closest encoding is Alice at distance `1`, within tolerance,
so the match is Alice with confidence `1 - 1 = 0`. -/
theorem match_nearest_c3_witness :
    matchFace (fun x y : ℚ => if x ≤ y then y - x else x - y)
      [⟨0, "Alice", 1⟩, ⟨10, "Bob", 2⟩] 2 1 = ("Alice", 0) := by
  have h := (match_nearest_c3 (fun x y : ℚ => if x ≤ y then y - x else x - y)
    [⟨0, "Alice", 1⟩, ⟨10, "Bob", 2⟩] 2 1 (by exact List.cons_ne_nil _ _)).2.2.2.1
    (by norm_num [faceDistances, npArgmin_cons_cons, npArgmin_singleton])
  rw [h]
  norm_num [faceDistances, npArgmin_cons_cons, npArgmin_singleton]

/-- Claim C4: matching against an empty gallery (no identities loaded) returns
the unmatched sentinel with confidence `0.0` for every query embedding
(`face_detector.py` lines 110-112); the function is total, so no exception is
raised — an empty index degrades, it does not fail. -/
theorem empty_index_unmatched_c4 {α : Type} (dist : α → α → ℚ) (tolerance : ℚ)
    (e : α) :
    matchFace dist ([] : List (KnownFace α)) tolerance e = ("Unknown Person", 0) := by
  simp [matchFace]

/-- The mutable blink-detection state of `AntiSpoofing`
(`anti_spoofing.py` lines 41-45): `eye_state` is the Python string `"open"` or
`"closing"`, plus the consecutive-closed-frame counter and the completed-blink
total.  The `last_blink_time` wall-clock field is not modelled (it feeds no
decision in the source). -/
structure BlinkState where
  eyeState : String
  blinkCounter : Nat
  totalBlinks : Nat
deriving Repr, DecidableEq

/-- Initial blink state (`anti_spoofing.py` lines 41-45, and
`reset_blink_detection`, lines 176-182). -/
def initialBlinkState : BlinkState := ⟨"open", 0, 0⟩

/-- `self.EYE_AR_THRESH = 0.22` (`anti_spoofing.py` line 39). -/
def EYE_AR_THRESH : ℚ := 22/100

/-- `self.EYE_AR_CONSEC_FRAMES = 2` (`anti_spoofing.py` line 40). -/
def EYE_AR_CONSEC_FRAMES : Nat := 2

/-- One step of the blink state machine for one frame whose averaged EAR is
`avgEar` (`AntiSpoofing.detect_blink`, `anti_spoofing.py` lines 103-120):
below the threshold, an open eye transitions to `"closing"` with counter 1 and
an already-closing eye increments the counter; at or above the threshold, a
closing eye whose counter reached `EYE_AR_CONSEC_FRAMES` registers one
completed blink, and in every above-threshold case the state returns to
`"open"` with counter 0. -/
def blinkStep (thresh : ℚ) (consec : Nat) (s : BlinkState) (avgEar : ℚ) : BlinkState :=
  if avgEar < thresh then
    if s.eyeState = "open" then ⟨"closing", 1, s.totalBlinks⟩
    else ⟨s.eyeState, s.blinkCounter + 1, s.totalBlinks⟩
  else
    if s.eyeState = "closing" ∧ consec ≤ s.blinkCounter then
      ⟨"open", 0, s.totalBlinks + 1⟩
    else ⟨"open", 0, s.totalBlinks⟩

/-- Feeding a sequence of per-frame EAR values through `detect_blink`
(the per-frame state updates of `anti_spoofing.py` lines 103-120 iterated in
arrival order). -/
def runBlinks (thresh : ℚ) (consec : Nat) (s : BlinkState) (ears : List ℚ) : BlinkState :=
  ears.foldl (blinkStep thresh consec) s

theorem blinkStep_low_open (thresh low : ℚ) (consec : Nat) (hlow : low < thresh)
    (b : Nat) :
    blinkStep thresh consec ⟨"open", 0, b⟩ low = ⟨"closing", 1, b⟩ := by
  simp [blinkStep, hlow]

theorem blinkStep_low_closing (thresh low : ℚ) (consec : Nat) (hlow : low < thresh)
    (c b : Nat) :
    blinkStep thresh consec ⟨"closing", c, b⟩ low = ⟨"closing", c + 1, b⟩ := by
  simp [blinkStep, hlow]

theorem blinkStep_high_open (thresh high : ℚ) (consec : Nat) (hhigh : thresh ≤ high)
    (c b : Nat) :
    blinkStep thresh consec ⟨"open", c, b⟩ high = ⟨"open", 0, b⟩ := by
  unfold blinkStep
  rw [if_neg (not_lt.mpr hhigh), if_neg]
  simp

theorem blinkStep_high_closing (thresh high : ℚ) (consec : Nat) (hhigh : thresh ≤ high)
    (c b : Nat) :
    blinkStep thresh consec ⟨"closing", c, b⟩ high
      = if consec ≤ c then ⟨"open", 0, b + 1⟩ else ⟨"open", 0, b⟩ := by
  unfold blinkStep
  rw [if_neg (not_lt.mpr hhigh)]
  by_cases hc : consec ≤ c
  · rw [if_pos ⟨rfl, hc⟩, if_pos hc]
  · rw [if_neg (by simp [hc]), if_neg hc]

theorem runBlinks_closed_run (thresh low : ℚ) (consec : Nat) (hlow : low < thresh)
    (k : Nat) : ∀ c b : Nat,
    runBlinks thresh consec ⟨"closing", c, b⟩ (List.replicate k low)
      = ⟨"closing", c + k, b⟩ := by
  induction k with
  | zero => intro c b; simp [runBlinks]
  | succ n ih =>
    intro c b
    rw [List.replicate_succ]
    show runBlinks thresh consec
      (blinkStep thresh consec ⟨"closing", c, b⟩ low) (List.replicate n low) = _
    rw [blinkStep_low_closing thresh low consec hlow, ih]
    congr 1
    omega

/-- Claim C6: starting from the open state, an EAR dip below the threshold
lasting `k ≥ 1` frames followed by a rise to or above the threshold increments
`total_blinks` by exactly 1 when `k` reaches the minimum consecutive-closed
count and by 0 when it falls short; in particular the sequence
`[0.30, 0.15, 0.15, 0.30]` with the source threshold `0.22` and minimum `2`
ends with `total_blinks = 1`. -/
theorem blink_counter_c6 (thresh low high : ℚ) (consec : Nat)
    (hlow : low < thresh) (hhigh : thresh ≤ high) (b : Nat) :
    (∀ k, 1 ≤ k →
      (runBlinks thresh consec ⟨"open", 0, b⟩
          (List.replicate k low ++ [high])).totalBlinks
        = if consec ≤ k then b + 1 else b)
    ∧ (runBlinks EYE_AR_THRESH EYE_AR_CONSEC_FRAMES initialBlinkState
        [30/100, 15/100, 15/100, 30/100]).totalBlinks = 1 := by
  constructor
  · intro k hk
    obtain ⟨n, rfl⟩ : ∃ n, k = n + 1 := ⟨k - 1, by omega⟩
    rw [List.replicate_succ, List.cons_append]
    show (runBlinks thresh consec
      (blinkStep thresh consec ⟨"open", 0, b⟩ low)
      (List.replicate n low ++ [high])).totalBlinks = _
    rw [blinkStep_low_open thresh low consec hlow]
    have happ : runBlinks thresh consec ⟨"closing", 1, b⟩
        (List.replicate n low ++ [high])
        = runBlinks thresh consec
            (runBlinks thresh consec ⟨"closing", 1, b⟩ (List.replicate n low))
            [high] := by
      simp [runBlinks, List.foldl_append]
    rw [happ, runBlinks_closed_run thresh low consec hlow n 1 b]
    show (blinkStep thresh consec ⟨"closing", 1 + n, b⟩ high).totalBlinks = _
    rw [blinkStep_high_closing thresh high consec hhigh]
    by_cases hc : consec ≤ n + 1
    · rw [if_pos (by omega), if_pos hc]
    · rw [if_neg (by omega), if_neg hc]
  · show (blinkStep EYE_AR_THRESH EYE_AR_CONSEC_FRAMES
      (blinkStep EYE_AR_THRESH EYE_AR_CONSEC_FRAMES
        (blinkStep EYE_AR_THRESH EYE_AR_CONSEC_FRAMES
          (blinkStep EYE_AR_THRESH EYE_AR_CONSEC_FRAMES ⟨"open", 0, 0⟩ (30/100))
          (15/100))
        (15/100))
      (30/100)).totalBlinks = 1
    rw [blinkStep_high_open _ _ _ (by norm_num [EYE_AR_THRESH]),
      blinkStep_low_open _ _ _ (by norm_num [EYE_AR_THRESH]),
      blinkStep_low_closing _ _ _ (by norm_num [EYE_AR_THRESH]),
      blinkStep_high_closing _ _ _ (by norm_num [EYE_AR_THRESH]),
      if_pos (by norm_num [EYE_AR_CONSEC_FRAMES])]

/-- Witness for C6: with the source parameters (threshold `0.22`, minimum `2`)
a dip of exactly 2 frames at EAR `0.15` followed by `0.30` yields exactly one
blink, and a 1-frame dip yields none. -/
theorem blink_counter_c6_witness :
    (runBlinks (22/100) 2 ⟨"open", 0, 0⟩
        (List.replicate 2 (15/100) ++ [30/100])).totalBlinks = 1
    ∧ (runBlinks (22/100) 2 ⟨"open", 0, 0⟩
        (List.replicate 1 (15/100) ++ [30/100])).totalBlinks = 0 := by
  have h := (blink_counter_c6 (22/100) (15/100) (30/100) 2
    (by norm_num) (by norm_num) 0).1
  constructor
  · rw [h 2 (by norm_num)]
    norm_num
  · rw [h 1 (by norm_num)]
    norm_num

/-- `AntiSpoofing.is_live_person` (`anti_spoofing.py` lines 156-174): live when
at least 3 seconds have elapsed and at least one blink was seen; otherwise,
from 5 seconds on, live exactly when at least one blink was seen; otherwise
not (yet) live. -/
def is_live_person (blinkCount : Nat) (timeElapsed : ℚ) : Bool :=
  if 3 ≤ timeElapsed ∧ 1 ≤ blinkCount then true
  else if 5 ≤ timeElapsed then decide (1 ≤ blinkCount)
  else false

/-- Claim C7: for every fixed blink count at least 1, `is_live_person` is
monotonic in the elapsed time: it is false for every elapsed time strictly
below 3 seconds and true at and above 3 seconds. -/
theorem is_live_monotone_c7 (blinkCount : Nat) (hb : 1 ≤ blinkCount)
    (t t2 : ℚ) (hle : t ≤ t2) :
    (is_live_person blinkCount t = true ↔ 3 ≤ t)
    ∧ (is_live_person blinkCount t = true → is_live_person blinkCount t2 = true) := by
  have key : ∀ u : ℚ, is_live_person blinkCount u = true ↔ 3 ≤ u := by
    intro u
    unfold is_live_person
    by_cases h3 : 3 ≤ u
    · rw [if_pos ⟨h3, hb⟩]
      simp [h3]
    · rw [if_neg (by simp [h3]), if_neg (by intro h5; exact h3 (by linarith))]
      simp [h3]
  exact ⟨key t, fun h => (key t2).mpr (le_trans ((key t).mp h) hle)⟩

/-- Witness for C7 at blink count 1: not live at 2 seconds, live at 3 seconds. -/
theorem is_live_monotone_c7_witness :
    is_live_person 1 2 = false ∧ is_live_person 1 3 = true := by
  constructor
  · have h := (is_live_monotone_c7 1 (by norm_num) 2 3 (by norm_num)).1
    by_contra hc
    simp only [Bool.not_eq_false] at hc
    have := h.mp hc
    norm_num at this
  · exact ((is_live_monotone_c7 1 (by norm_num) 3 3 (by norm_num)).1).mpr (by norm_num)

/-- A row of the `attendance` table (`db_manager.py` lines 64-75): one
day-record per inserted row, with nullable check-in/check-out timestamps.
The `status TEXT DEFAULT 'present'` column is read by no embedded code path
and is omitted. -/
structure AttendanceRow where
  rowId : Nat
  userId : Nat
  checkInTime : Option Nat
  checkOutTime : Option Nat
  date : Nat
  confidenceScore : ℚ
deriving Repr, DecidableEq

/-- A row of the `attendance_logs` audit table (`db_manager.py` lines 78-88);
`timestamp` takes the SQLite `CURRENT_TIMESTAMP` default of the insertion
moment. -/
structure LogRow where
  userId : Nat
  timestamp : Nat
  action : String
  confidenceScore : ℚ
deriving Repr, DecidableEq

/-- A row of the `users` table (`db_manager.py` lines 36-48), restricted to the
fields the embedded paths read. -/
structure UserRow where
  userId : Nat
  name : String
  isActive : Bool
deriving Repr, DecidableEq

/-- The SQLite state touched by attendance marking: the `users`, `attendance`
and `attendance_logs` tables, plus the next `AUTOINCREMENT` id of the
`attendance` table. -/
structure DBState where
  users : List UserRow
  attendance : List AttendanceRow
  logs : List LogRow
  nextAttendanceId : Nat
deriving Repr, DecidableEq

/-- Return value and post-state of `DatabaseManager.mark_attendance`. -/
structure MarkResult where
  db : DBState
  result : Bool
deriving Repr, DecidableEq

/-- `DatabaseManager.mark_attendance` (`db_manager.py` lines 254-304).
`today` and `now` stand for `datetime.now().date()` and `datetime.now()`.
The `SELECT ... WHERE user_id = ? AND date = ?` with `fetchone` is the first
matching row in table order; on an existing record, check-out is written only
when check-in is set and check-out is not, and check-in only when check-in is
unset; with no record, only the `check_in` action inserts a row.  One
`attendance_logs` row is appended unconditionally, and the function returns
`True` unconditionally (line 304). -/
def mark_attendance (db : DBState) (userId : Nat) (confidenceScore : ℚ)
    (action : String) (today now : Nat) : MarkResult :=
  let existingRecord := db.attendance.find?
    (fun r => r.userId == userId && r.date == today)
  let attendance1 :=
    match existingRecord with
    | some r =>
      if action = "check_out" ∧ r.checkInTime.isSome ∧ r.checkOutTime.isNone then
        db.attendance.map (fun x =>
          if x.rowId = r.rowId
          then { x with checkOutTime := some now, confidenceScore := confidenceScore }
          else x)
      else if action = "check_in" ∧ r.checkInTime.isNone then
        db.attendance.map (fun x =>
          if x.rowId = r.rowId
          then { x with checkInTime := some now, confidenceScore := confidenceScore }
          else x)
      else db.attendance
    | none =>
      if action = "check_in" then
        db.attendance
          ++ [⟨db.nextAttendanceId, userId, some now, none, today, confidenceScore⟩]
      else db.attendance
  let nextId :=
    match existingRecord with
    | some _ => db.nextAttendanceId
    | none => if action = "check_in" then db.nextAttendanceId + 1 else db.nextAttendanceId
  { db := { db with
      attendance := attendance1,
      logs := db.logs ++ [⟨userId, now, action, confidenceScore⟩],
      nextAttendanceId := nextId },
    result := true }

/-- The `ORDER BY a.date DESC, a.check_in_time DESC` of
`DatabaseManager.get_attendance_records` (`db_manager.py` line 328): `a` sorts
no later than `b` when its date is larger, or dates tie and its check-in
timestamp is larger; SQLite places NULL check-ins last under `DESC`. -/
def recordBefore (a b : AttendanceRow) : Bool :=
  if a.date ≠ b.date then decide (b.date < a.date)
  else
    match a.checkInTime, b.checkInTime with
    | some x, some y => decide (y ≤ x)
    | some _, none => true
    | none, some _ => false
    | none, none => true

def insertSortedRecord (a : AttendanceRow) : List AttendanceRow → List AttendanceRow
  | [] => [a]
  | b :: rest =>
    if recordBefore a b then a :: b :: rest else b :: insertSortedRecord a rest

def sortRecords (l : List AttendanceRow) : List AttendanceRow :=
  l.foldr insertSortedRecord []

/-- `DatabaseManager.get_attendance_records` (`db_manager.py` lines 306-334):
the inner `JOIN users u ON a.user_id = u.id` keeps only attendance rows whose
user exists, the optional filters restrict date and user, and rows come back
ordered by date and check-in time descending. -/
def get_attendance_records (db : DBState) (dateFilter userFilter : Option Nat) :
    List AttendanceRow :=
  sortRecords (db.attendance.filter (fun r =>
    db.users.any (fun u => u.userId == r.userId)
    && (match dateFilter with | some d => r.date == d | none => true)
    && (match userFilter with | some u => r.userId == u | none => true)))

/-- `FaceRecognitionTransformer._get_attendance_status`
(`_live_attendance_webrtc.py` lines 53-71): look at today's first record for the
user; both timestamps set is `"completed"`, check-in only is `"checked_in"`,
a record without check-in is `"pending"`, and no record is `"no_record"`. -/
def get_attendance_status (db : DBState) (userId today : Nat) : String :=
  match get_attendance_records db (some today) (some userId) with
  | [] => "no_record"
  | r :: _ =>
    match r.checkInTime, r.checkOutTime with
    | some _, some _ => "completed"
    | some _, none => "checked_in"
    | none, _ => "pending"

/-- `FaceRecognitionTransformer._determine_action`
(`_live_attendance_webrtc.py` lines 44-51): `auto` resolves to check-in before
noon and check-out from noon on; any other mode is returned as-is. -/
def determine_action (attendanceMode : String) (currentHour : Nat) : String :=
  if attendanceMode = "auto" then
    if currentHour < 12 then "check_in" else "check_out"
  else attendanceMode

/-- Return value of `_process_attendance`: the post-state of the database and
the message written to `st.session_state.last_attendance_message`. -/
structure ProcessResult where
  db : DBState
  message : String
deriving Repr, DecidableEq

/-- The message set by the `except` handler of `_process_attendance`
(`_live_attendance_webrtc.py` lines 254-256).  The should-mark branches call
`self.db_manager.mark_attendance(user_id, attendance_type=...)` (lines
243-245), but `DatabaseManager.mark_attendance` has the signature
`(self, user_id, confidence_score, action='check_in')` (`db_manager.py` line
254): the call raises `TypeError` for the unexpected keyword argument before
any database work happens, the bare `except Exception` catches it, and only
this error message is surfaced.  The CPython error text is abbreviated here. -/
def markCallErrorMessage : String :=
  "❌ Error processing attendance: mark_attendance TypeError: unexpected keyword argument attendance_type"

/-- `FaceRecognitionTransformer._process_attendance`
(`_live_attendance_webrtc.py` lines 217-256): resolve the action from the mode
and the clock hour, read the current day status, and either surface a no-op
message, or attempt to mark — an attempt which always ends in the `TypeError`
path described at `markCallErrorMessage`, leaving the database unchanged on
every path. -/
def process_attendance (db : DBState) (userId : Nat) (name : String)
    (confidence : ℚ) (attendanceMode : String) (currentHour today : Nat) :
    ProcessResult :=
  let action := determine_action attendanceMode currentHour
  let status := get_attendance_status db userId today
  if action = "check_in" then
    if status = "no_record" ∨ status = "pending" then
      { db := db, message := markCallErrorMessage }
    else
      { db := db, message := "ℹ️ Already checked in: " ++ name }
  else if action = "check_out" then
    if status = "checked_in" then
      { db := db, message := markCallErrorMessage }
    else if status = "completed" then
      { db := db, message := "ℹ️ Already completed: " ++ name }
    else
      { db := db, message := "⚠️ No check-in found: " ++ name }
  else
    { db := db, message := "" }

theorem process_attendance_db_unchanged (db : DBState) (userId : Nat)
    (name : String) (confidence : ℚ) (attendanceMode : String)
    (currentHour today : Nat) :
    (process_attendance db userId name confidence attendanceMode
      currentHour today).db = db := by
  unfold process_attendance
  dsimp only
  repeat' split
  all_goals rfl

theorem process_attendance_check_in_noop (db : DBState) (userId : Nat)
    (name : String) (conf : ℚ) (hour today : Nat)
    (hstatus : get_attendance_status db userId today = "checked_in"
      ∨ get_attendance_status db userId today = "completed") :
    process_attendance db userId name conf "check_in" hour today
      = ⟨db, "ℹ️ Already checked in: " ++ name⟩ := by
  unfold process_attendance determine_action
  dsimp only
  obtain h | h := hstatus <;> rw [h] <;> simp

/-- Claim C1: for an identity and date whose unique day-record already has a
check-in timestamp (state `checked_in` or `completed`), a repeated `check_in`
request is a no-op: both of two sequential identical requests leave the
database unchanged, the second is surfaced as the "already checked in"
message, and exactly one attendance row for the `(user_id, date)` key remains
afterwards. -/
theorem check_in_idempotent_c1 (db : DBState) (userId : Nat) (name : String)
    (conf1 conf2 : ℚ) (hour1 hour2 today : Nat)
    (hone : (db.attendance.filter
      (fun r => r.userId == userId && r.date == today)).length = 1)
    (hstatus : get_attendance_status db userId today = "checked_in"
      ∨ get_attendance_status db userId today = "completed") :
    process_attendance db userId name conf1 "check_in" hour1 today
      = ⟨db, "ℹ️ Already checked in: " ++ name⟩
    ∧ process_attendance
        (process_attendance db userId name conf1 "check_in" hour1 today).db
        userId name conf2 "check_in" hour2 today
      = ⟨db, "ℹ️ Already checked in: " ++ name⟩
    ∧ ((process_attendance
        (process_attendance db userId name conf1 "check_in" hour1 today).db
        userId name conf2 "check_in" hour2 today).db.attendance.filter
          (fun r => r.userId == userId && r.date == today)).length = 1 := by
  have h1 := process_attendance_check_in_noop db userId name conf1 hour1 today hstatus
  have hdb1 : (process_attendance db userId name conf1 "check_in" hour1 today).db
      = db := by rw [h1]
  have h2 := process_attendance_check_in_noop db userId name conf2 hour2 today hstatus
  refine ⟨h1, ?_, ?_⟩
  · rw [hdb1, h2]
  · rw [hdb1, h2]
    exact hone

/-- Witness for C1: Alice (user 1) already checked in at timestamp 5 on day 0;
a further check-in request is the "already checked in" no-op and the database
is untouched. -/
theorem check_in_idempotent_c1_witness :
    process_attendance ⟨[⟨1, "Alice", true⟩], [⟨1, 1, some 5, none, 0, 1⟩], [], 2⟩
        1 "Alice" 1 "check_in" 10 0
      = ⟨⟨[⟨1, "Alice", true⟩], [⟨1, 1, some 5, none, 0, 1⟩], [], 2⟩,
         "ℹ️ Already checked in: Alice"⟩ := by
  exact (check_in_idempotent_c1
    ⟨[⟨1, "Alice", true⟩], [⟨1, 1, some 5, none, 0, 1⟩], [], 2⟩
    1 "Alice" 1 1 10 11 0 (by decide) (by decide)).1

/-- Claim C5: a `check_out` request for an identity and date with no existing
day-record is rejected as the "must check in first" no-op (surfaced by the
source as the "No check-in found" message): the page-level handler leaves the
whole database unchanged, and even a direct `mark_attendance` call with action
`check_out` neither inserts a row nor sets any check-out timestamp. -/
theorem check_out_no_record_c5 (db : DBState) (userId : Nat) (name : String)
    (conf : ℚ) (hour today now : Nat)
    (hnone : db.attendance.filter
      (fun r => r.userId == userId && r.date == today) = []) :
    process_attendance db userId name conf "check_out" hour today
      = ⟨db, "⚠️ No check-in found: " ++ name⟩
    ∧ (mark_attendance db userId conf "check_out" today now).db.attendance
        = db.attendance := by
  rw [List.filter_eq_nil_iff] at hnone
  constructor
  · have hrecords : get_attendance_records db (some today) (some userId) = [] := by
      unfold get_attendance_records
      have hfil : db.attendance.filter (fun r =>
          db.users.any (fun u => u.userId == r.userId)
          && (match (some today : Option Nat) with
              | some d => r.date == d | none => true)
          && (match (some userId : Option Nat) with
              | some u => r.userId == u | none => true)) = [] := by
        rw [List.filter_eq_nil_iff]
        intro a ha
        have h2 := hnone a ha
        simp only [Bool.and_eq_true, beq_iff_eq] at h2 ⊢
        tauto
      rw [hfil]
      rfl
    have hstatus : get_attendance_status db userId today = "no_record" := by
      unfold get_attendance_status
      rw [hrecords]
    unfold process_attendance determine_action
    dsimp only
    rw [hstatus]
    simp
  · have hfind : db.attendance.find?
        (fun r => r.userId == userId && r.date == today) = none := by
      rw [List.find?_eq_none]
      intro a ha
      exact hnone a ha
    unfold mark_attendance
    rw [hfind]
    simp

/-- Witness for C5: user 1 has no attendance row at all; a check-out request
is rejected with the no-check-in message and the database is untouched. -/
theorem check_out_no_record_c5_witness :
    process_attendance ⟨[⟨1, "Alice", true⟩], [], [], 1⟩ 1 "Alice" 1
        "check_out" 10 0
      = ⟨⟨[⟨1, "Alice", true⟩], [], [], 1⟩, "⚠️ No check-in found: Alice"⟩ := by
  exact (check_out_no_record_c5 ⟨[⟨1, "Alice", true⟩], [], [], 1⟩ 1 "Alice" 1
    10 0 7 (by decide)).1

/-- Counterexample to claim C8 as stated: an attendance attempt resolved by
`_process_attendance` as the "already checked in" no-op appends nothing to the
`attendance_logs` audit table (the log insert lives inside `mark_attendance`,
which the no-op branches never call), so it is not the case that every attempt
appends exactly one audit entry. -/
theorem audit_log_c8_counterexample :
    (process_attendance ⟨[⟨1, "Alice", true⟩], [⟨1, 1, some 5, none, 0, 1⟩], [], 2⟩
        1 "Alice" 1 "check_in" 10 0).db.logs = []
    ∧ (process_attendance ⟨[⟨1, "Alice", true⟩], [⟨1, 1, some 5, none, 0, 1⟩], [], 2⟩
        1 "Alice" 1 "check_in" 10 0).message
      = "ℹ️ Already checked in: Alice" := by
  decide

/-- Amended claim C8: every call to `DatabaseManager.mark_attendance` appends
exactly one `(user_id, timestamp, action, confidence)` entry to the audit log
and overwrites no existing entry, whether or not the day-record changed; but
attempts that `_process_attendance` resolves as no-op outcomes never invoke
`mark_attendance` and append no audit entry. -/
theorem audit_log_c8_amended (db : DBState) (userId : Nat) (conf : ℚ)
    (action : String) (today now : Nat) :
    (mark_attendance db userId conf action today now).db.logs
      = db.logs ++ [⟨userId, now, action, conf⟩] := rfl

/-- Counterexample to claim C9 as stated: `mark_attendance` returns the same
result value (`True`) for a `check_in` on a day-record that is already checked
in (no mutation) as for a `check_in` on an empty table (row inserted), so the
caller cannot distinguish applied from already-applied. -/
theorem transition_result_c9_counterexample :
    (mark_attendance ⟨[⟨1, "Alice", true⟩], [⟨1, 1, some 5, none, 0, 1⟩], [], 2⟩
        1 1 "check_in" 0 7).result
      = (mark_attendance ⟨[⟨1, "Alice", true⟩], [], [], 1⟩ 1 1 "check_in" 0 7).result
    ∧ (mark_attendance ⟨[⟨1, "Alice", true⟩], [⟨1, 1, some 5, none, 0, 1⟩], [], 2⟩
        1 1 "check_in" 0 7).db.attendance
      = [⟨1, 1, some 5, none, 0, 1⟩]
    ∧ (mark_attendance ⟨[⟨1, "Alice", true⟩], [], [], 1⟩
        1 1 "check_in" 0 7).db.attendance ≠ [] := by
  decide

/-- Amended claim C9: `mark_attendance` returns `True` unconditionally
(`db_manager.py` line 304), whether it mutated the day-record or changed
nothing; the result value does not distinguish success from already-applied. -/
theorem transition_result_c9_amended (db : DBState) (userId : Nat) (conf : ℚ)
    (action : String) (today now : Nat) :
    (mark_attendance db userId conf action today now).result = true := rfl

/-- One tuple of the result list of `detect_faces_optimized`
(`face_detector.py` lines 81, 114): `(name, location, confidence)`, where the
location is the box scaled back to source-frame coordinates, or `None` for the
no-face sentinel. -/
structure FaceTuple where
  name : String
  location : Option (Int × Int × Int × Int)
  confidence : ℚ
deriving Repr, DecidableEq

/-- The `self.detection_cache` dict of `FaceDetector` (`face_detector.py`
lines 30-31), keyed by `hash(frame.tobytes())`: each entry holds the insertion
time and the cached result list.  The Python dict is modelled as an
association list in insertion order. -/
abbrev DetectionCache := List (Nat × ℚ × List FaceTuple)

/-- Lookup `self.detection_cache[frame_hash]` (`face_detector.py` lines 68-69). -/
def cacheLookup (cache : DetectionCache) (frameHash : Nat) :
    Option (ℚ × List FaceTuple) :=
  (cache.find? (fun entry => entry.1 == frameHash)).map (fun entry => entry.2)

/-- The dict store `self.detection_cache[frame_hash] = (current_time, results)`
(`face_detector.py` lines 82, 117): overwrite in place when the key exists,
append otherwise. -/
def cacheInsert (cache : DetectionCache) (frameHash : Nat) (time : ℚ)
    (result : List FaceTuple) : DetectionCache :=
  if cache.any (fun entry => entry.1 == frameHash) then
    cache.map (fun entry =>
      if entry.1 == frameHash then (frameHash, time, result) else entry)
  else cache ++ [(frameHash, time, result)]

/-- `FaceDetector._clean_cache` (`face_detector.py` lines 124-129): evict every
entry strictly older than the cache timeout. -/
def clean_cache (cache : DetectionCache) (currentTime cacheTimeout : ℚ) :
    DetectionCache :=
  cache.filter (fun entry => decide (currentTime - entry.2.1 ≤ cacheTimeout))

/-- Scaling a detected box back to source coordinates (`face_detector.py`
lines 92-97): each coordinate is `int(coord / self.scale_factor)`; the
coordinates are non-negative, so Python `int` truncation is the floor. -/
def scaleBack (scaleFactor : ℚ) (loc : Nat × Nat × Nat × Nat) :
    Int × Int × Int × Int :=
  (Int.floor ((loc.1 : ℚ) / scaleFactor), Int.floor ((loc.2.1 : ℚ) / scaleFactor),
   Int.floor ((loc.2.2.1 : ℚ) / scaleFactor), Int.floor ((loc.2.2.2 : ℚ) / scaleFactor))

/-- `FaceDetector.detect_faces_optimized` (`face_detector.py` lines 55-122).
The external per-frame calls are parameters: `detected` is the list of
`(box, embedding)` pairs the `face_recognition` library finds on the
downscaled frame (`fr.face_locations` + `fr.face_encodings`), `dist` its
distance metric, and `frameHash` the value of `hash(frame.tobytes())`.  A
fresh-enough exact-frame cache hit returns the cached result unchanged; with
zero detected faces the one-element sentinel `("No face detected", None, 0.0)`
is computed, cached, and returned (without the cache-clean step, which runs
only on the non-empty path); otherwise every face is matched and the results
are cached and the cache cleaned.  Returns the result list and the updated
cache. -/
def detect_faces_optimized {α : Type} (dist : α → α → ℚ)
    (known : List (KnownFace α)) (tolerance scaleFactor cacheTimeout : ℚ)
    (cache : DetectionCache) (frameHash : Nat) (currentTime : ℚ)
    (detected : List ((Nat × Nat × Nat × Nat) × α)) :
    List FaceTuple × DetectionCache :=
  let freshHit :=
    match cacheLookup cache frameHash with
    | some (cacheTime, cachedResult) =>
      if currentTime - cacheTime < cacheTimeout then some cachedResult else none
    | none => none
  match freshHit with
  | some cachedResult => (cachedResult, cache)
  | none =>
    match detected with
    | [] =>
      let result : List FaceTuple := [⟨"No face detected", none, 0⟩]
      (result, cacheInsert cache frameHash currentTime result)
    | _ =>
      let results := detected.map (fun fl =>
        let nameConf := matchFace dist known tolerance fl.2
        (⟨nameConf.1, some (scaleBack scaleFactor fl.1), nameConf.2⟩ : FaceTuple))
      (results,
       clean_cache (cacheInsert cache frameHash currentTime results)
         currentTime cacheTimeout)

/-- One entry of the `recognition_results` list built by
`FaceRecognitionTransformer.recv` (`_live_attendance_webrtc.py` lines
132-139): display name, box, confidence, looked-up user id (None for unknown
faces), and the known flag `name != "Unknown Person"`.  The `color` field is
pure drawing data and is omitted. -/
structure RecogResult where
  name : String
  location : Option (Int × Int × Int × Int)
  confidence : ℚ
  userId : Option Nat
  isKnown : Bool
deriving Repr, DecidableEq

/-- The `_process_attendance` invocations performed by
`_draw_recognition_results` (`_live_attendance_webrtc.py` lines 178-207): for
each result that has a (truthy) location, is known, has a truthy user id and
confidence at or above the threshold, `_process_attendance` is called exactly
when the passed `is_live` and `detection_complete` are both true.  Returns the
user ids for which `_process_attendance` runs, in drawing order. -/
def attendanceTriggers (results : List RecogResult) (confidenceThreshold : ℚ)
    (isLive detectionComplete : Bool) : List Nat :=
  results.filterMap (fun r =>
    match r.location, r.userId with
    | some _, some uid =>
      if r.isKnown && !(uid == 0) && decide (confidenceThreshold ≤ r.confidence)
          && isLive && detectionComplete
      then some uid else none
    | _, _ => none)

/-- `FaceRecognitionTransformer._draw_cached_results`
(`_live_attendance_webrtc.py` lines 162-169): a skipped frame replays
`last_processed_result` through `_draw_recognition_results` with the liveness
arguments hardcoded to `True, True`; an empty cache draws nothing.  Returns
the user ids for which `_process_attendance` runs on the skipped frame. -/
def drawCachedTriggers (lastProcessedResult : List RecogResult)
    (confidenceThreshold : ℚ) : List Nat :=
  if lastProcessedResult = [] then []
  else attendanceTriggers lastProcessedResult confidenceThreshold true true

/-- Claim C2, evaluated at the failing input: a skipped frame whose cached
`last_processed_result` holds a known match (Alice, user id 1, confidence 0.9
at threshold 0.5) does invoke `_process_attendance` for that user — the
hardcoded `True, True` liveness arguments of `_draw_cached_results` let a
cached, stale match drive the attendance path, contradicting the requirement
that attendance transitions are triggered only from freshly computed matches
and liveness verdicts. -/
theorem cached_results_trigger_attendance_c2 :
    drawCachedTriggers [⟨"Alice", some (10, 60, 80, 20), 9/10, some 1, true⟩]
      (1/2) = [1] := by
  unfold drawCachedTriggers attendanceTriggers
  rw [if_neg (by simp)]
  simp only [List.filterMap]
  norm_num

/-- One entry of the `self.unknown_persons` dict of the transformer
(`_live_attendance_webrtc.py` lines 36-38, 73-89), keyed by the formatted
location string. -/
structure UnknownEntry where
  key : String
  uid : String
  firstSeen : ℚ
  lastSeen : ℚ
deriving Repr, DecidableEq

/-- The unknown-person tracking state of the transformer
(`_live_attendance_webrtc.py` lines 36-38): the dict (as an association list in
insertion order) and the running counter. -/
structure UnknownState where
  persons : List UnknownEntry
  counter : Nat
deriving Repr, DecidableEq

/-- The location key string of `_handle_unknown_person`
(`_live_attendance_webrtc.py` line 76). -/
def locationKey (loc : Int × Int × Int × Int) : String :=
  toString loc.1 ++ "_" ++ toString loc.2.1 ++ "_"
    ++ toString loc.2.2.1 ++ "_" ++ toString loc.2.2.2

/-- `FaceRecognitionTransformer._handle_unknown_person`
(`_live_attendance_webrtc.py` lines 73-89): a new location key mints
`Unknown_{counter+1}` and records first/last seen times; a known key only
refreshes its last-seen time.  Returns the pseudo-identity and the updated
state. -/
def handle_unknown_person (s : UnknownState) (now : ℚ)
    (loc : Int × Int × Int × Int) : String × UnknownState :=
  let key := locationKey loc
  match s.persons.find? (fun p => p.key == key) with
  | some p =>
    (p.uid,
     ⟨s.persons.map (fun q => if q.key == key then { q with lastSeen := now } else q),
      s.counter⟩)
  | none =>
    let counter1 := s.counter + 1
    let uid := "Unknown_" ++ toString counter1
    (uid, ⟨s.persons ++ [⟨key, uid, now, now⟩], counter1⟩)

/-- `FaceRecognitionTransformer._get_user_id_by_name`
(`_live_attendance_webrtc.py` lines 150-160): first active user with that
name, `None` when absent. -/
def get_user_id_by_name (users : List UserRow) (name : String) : Option Nat :=
  (users.find? (fun u => u.name == name && u.isActive)).map (fun u => u.userId)

/-- The `recognition_results` construction loop of
`FaceRecognitionTransformer.recv` (`_live_attendance_webrtc.py` lines
114-139): sentinel `"No face detected"` entries are skipped (`continue`),
`"Unknown Person"` entries get a session-local pseudo-identity from their
location (subscripting a `None` location would raise `TypeError`, modelled as
the `none` result), and any other entry is a known face carrying the user id
looked up by name.  Returns the built list and the updated unknown-person
state. -/
def build_recognition_results (users : List UserRow) (now : ℚ) :
    List FaceTuple → UnknownState → Option (List RecogResult × UnknownState)
  | [], s => some ([], s)
  | f :: rest, s =>
    if f.name = "No face detected" then
      build_recognition_results users now rest s
    else if f.name = "Unknown Person" then
      match f.location with
      | none => none
      | some loc =>
        let handled := handle_unknown_person s now loc
        match build_recognition_results users now rest handled.2 with
        | none => none
        | some (res, s2) =>
          some (⟨handled.1, f.location, f.confidence, none, false⟩ :: res, s2)
    else
      match build_recognition_results users now rest s with
      | none => none
      | some (res, s2) =>
        some (⟨f.name, f.location, f.confidence,
               get_user_id_by_name users f.name, true⟩ :: res, s2)

theorem cacheLookup_cacheInsert_of_miss (cache : DetectionCache) (h : Nat)
    (t : ℚ) (res : List FaceTuple) (hmiss : cacheLookup cache h = none) :
    cacheLookup (cacheInsert cache h t res) h = some (t, res) := by
  have hfind : cache.find? (fun entry => entry.1 == h) = none := by
    unfold cacheLookup at hmiss
    cases hf : cache.find? (fun entry => entry.1 == h) with
    | none => rfl
    | some v => rw [hf] at hmiss; simp at hmiss
  have hany : cache.any (fun entry => entry.1 == h) = false := by
    rw [List.find?_eq_none] at hfind
    rw [List.any_eq_false]
    intro x hx
    exact hfind x hx
  unfold cacheInsert
  rw [hany]
  simp only [Bool.false_eq_true, if_false]
  unfold cacheLookup
  rw [List.find?_append, hfind]
  simp

/-- Claim C10: on a frame with zero detected faces (and no usable exact-frame
cache entry), `detect_faces_optimized` returns the one-element sentinel list
`[("No face detected", None, 0.0)]` rather than an empty list, stores that
sentinel in the frame cache like any other result, and the `recv` caller
filters the sentinel name out before treating entries as detected faces. -/
theorem no_face_sentinel_c10 {α : Type} (dist : α → α → ℚ)
    (known : List (KnownFace α)) (tolerance scaleFactor cacheTimeout : ℚ)
    (cache : DetectionCache) (frameHash : Nat) (currentTime : ℚ)
    (hmiss : cacheLookup cache frameHash = none) :
    (detect_faces_optimized dist known tolerance scaleFactor cacheTimeout cache
        frameHash currentTime []).1 = [⟨"No face detected", none, 0⟩]
    ∧ cacheLookup (detect_faces_optimized dist known tolerance scaleFactor
        cacheTimeout cache frameHash currentTime []).2 frameHash
      = some (currentTime, [⟨"No face detected", none, 0⟩])
    ∧ (∀ (users : List UserRow) (now : ℚ) (rest : List FaceTuple)
        (s : UnknownState),
        build_recognition_results users now
            (⟨"No face detected", none, 0⟩ :: rest) s
          = build_recognition_results users now rest s) := by
  have hd : detect_faces_optimized dist known tolerance scaleFactor cacheTimeout
      cache frameHash currentTime []
      = ([⟨"No face detected", none, 0⟩],
         cacheInsert cache frameHash currentTime [⟨"No face detected", none, 0⟩]) := by
    unfold detect_faces_optimized
    rw [hmiss]
  refine ⟨by rw [hd], ?_, ?_⟩
  · rw [hd]
    exact cacheLookup_cacheInsert_of_miss cache frameHash currentTime _ hmiss
  · intro users now rest s
    rfl

/-- Witness for C10 at a concrete empty cache and empty frame: the sentinel
list is returned, cached under the frame hash, and skipped by the
result-building loop. -/
theorem no_face_sentinel_c10_witness :
    (detect_faces_optimized (fun x y : ℚ => if x ≤ y then y - x else x - y)
        [] 1 1 2 [] 7 0 []).1 = [⟨"No face detected", none, 0⟩]
    ∧ cacheLookup (detect_faces_optimized
        (fun x y : ℚ => if x ≤ y then y - x else x - y)
        [] 1 1 2 [] 7 0 []).2 7
      = some (0, [⟨"No face detected", none, 0⟩])
    ∧ build_recognition_results [] 0 [⟨"No face detected", none, 0⟩] ⟨[], 0⟩
      = some ([], ⟨[], 0⟩) := by
  have h := no_face_sentinel_c10 (fun x y : ℚ => if x ≤ y then y - x else x - y)
    [] 1 1 2 [] 7 0 rfl
  exact ⟨h.1, h.2.1, by rw [h.2.2 [] 0 [] ⟨[], 0⟩]; rfl⟩
